import Mathlib

/-!
Verification development for the tinder-swipe orchestration backend.

The definitions below are a shallow embedding of the Python sources under
`src/backend/app`: the task state machine of `services/orchestrator.py`,
the drive client of `services/pikpak_service.py`, the cloud client of
`services/linode_manager.py` and the daemon RPC client of
`services/aria2_client.py`.  External collaborators (the drive API, the
daemon, the cloud API) are modelled as explicit environments; a call that
may raise in Python is modelled with `Except`/`Option` outcomes supplied
by the environment.  Timestamps are integers (seconds).
-/

namespace TinderSwipe

/-- Task lifecycle statuses, from `models/task.py` (`TaskStatus`, string-valued). -/
inductive TaskStatus where
  | pending
  | confirmed
  | pikpakTransferring
  | downloading
  | complete
  | ignored
  | error
deriving DecidableEq, Repr

/-- The fields of a `Task` row that the orchestrator ticks read or write,
from `models/task.py`.  `aria2Gids` models the JSON-encoded gid list through
`get_aria2_gids`/`set_aria2_gids`; `completedAt` is in seconds. -/
structure Task where
  status : TaskStatus
  sourceUrl : String
  pikpakFileId : Option String := none
  pikpakFileName : Option String := none
  aria2Gids : List String := []
  errorMessage : Option String := none
  completedAt : Option Int := none
deriving DecidableEq, Repr

/-- The fields of a drive file record consumed by the readiness check,
from `pikpak_service.py` (`_check_file_ready` reads `size`, `phase`,
`kind`, `name`; `size` is the value after Python's `int(...)` conversion). -/
structure FileInfo where
  size : Int
  phase : String
  kind : String
  name : String
deriving DecidableEq, Repr

/-- `PikPakService._check_file_ready` (pikpak_service.py lines 414-435):
a folder is ready; otherwise ready iff size > 0 and phase is
`PHASE_TYPE_COMPLETE`.  Returns `(is_ready, file_id)`. -/
def checkFileReady (info : FileInfo) (fileId : String) : Bool × Option String :=
  if info.kind = "drive#folder" then
    (true, some fileId)
  else
    (decide (info.size > 0) && decide (info.phase = "PHASE_TYPE_COMPLETE"), some fileId)

/-- Outcome of one `aria2.tellStatus` probe as observed by
`Orchestrator._monitor_downloads`: either the returned `status` string, or
an exception (handle not found, transport failure). -/
inductive ProbeResult where
  | ok (status : String)
  | exc
deriving DecidableEq, Repr

/-- The inner gid loop of `Orchestrator._monitor_downloads`
(orchestrator.py lines 479-493): starting from accumulator `all_complete`,
scan the gids; a probe returning `"error"` sets `has_error` and breaks;
a probe returning anything other than `"complete"`, or raising, clears
`all_complete`.  Returns `(all_complete, has_error)`. -/
def monitorScan (probe : String → ProbeResult) : List String → Bool → Bool × Bool
  | [], allComplete => (allComplete, false)
  | gid :: rest, allComplete =>
    match probe gid with
    | .ok s =>
      if s = "error" then (allComplete, true)
      else if s = "complete" then monitorScan probe rest allComplete
      else monitorScan probe rest false
    | .exc => monitorScan probe rest false

/-- The per-task body of `Orchestrator._monitor_downloads`
(orchestrator.py lines 467-502), for a task already selected by the
`status == DOWNLOADING` query: an empty gid list marks the task `ERROR`
with `"无下载任务 GID"`; otherwise the aggregation of the probe results
decides between `ERROR` (`"Aria2 下载失败"`), `COMPLETE` with
`completed_at = now`, or leaving the task untouched. -/
def monitorDownloadingTask (probe : String → ProbeResult) (now : Int) (t : Task) : Task :=
  if t.aria2Gids = [] then
    { t with status := .error, errorMessage := some "无下载任务 GID" }
  else
    let r := monitorScan probe t.aria2Gids true
    if r.2 then
      { t with status := .error, errorMessage := some "Aria2 下载失败" }
    else if r.1 then
      { t with status := .complete, completedAt := some now }
    else
      t

/-- One Monitor tick (`Orchestrator._monitor_downloads`): every task
selected by `status == DOWNLOADING` goes through the per-task body, all
others are untouched. -/
def monitorTick (probe : String → ProbeResult) (now : Int) (tasks : List Task) : List Task :=
  tasks.map fun t =>
    if t.status = .downloading then monitorDownloadingTask probe now t else t

/-- A video file found by `PikPakService.get_video_files_recursive`:
`(file_id, name, size, download_url)`. -/
structure Video where
  fileId : String
  name : String
  size : Int
  url : String
deriving DecidableEq, Repr

/-- The collaborators of one Push-to-Daemon tick
(`Orchestrator._push_ready_transfers` / `_push_to_aria2`):
`isFileReady` is `PikPakService.is_file_ready` (total, see `isFileReady`
below); `videosOf` is `PikPakService.get_video_files_recursive`, which may
raise; `addUri` is `Aria2Client.add_uri` on `(uri, dir, out)`, which may
raise.  Raised exceptions carry their message string. -/
structure DriveEnv where
  isFileReady : String → Option String → Bool × Option String
  videosOf : String → Except String (List Video)
  addUri : String → String → String → Except String String

/-- The `add_uri` loop of `Orchestrator._push_to_aria2` (orchestrator.py
lines 424-434): push each video, collecting gids and the calls made; an
exception aborts the loop with its message (the calls made so far stand). -/
def pushLoop (env : DriveEnv) (dbp : String) :
    List Video → Option String × List String × List (String × String × String)
  | [] => (none, [], [])
  | v :: rest =>
    match env.addUri v.url dbp v.name with
    | .error msg => (some msg, [], [(v.url, dbp, v.name)])
    | .ok gid =>
      let r := pushLoop env dbp rest
      (r.1, gid :: r.2.1, (v.url, dbp, v.name) :: r.2.2)

/-- Result of the per-task Push-to-Daemon body: the updated task, the ids
passed to `get_video_files_recursive`, and the `add_uri` calls made. -/
structure PushResult where
  task : Task
  videoCalls : List String
  addUriCalls : List (String × String × String)
deriving DecidableEq, Repr

/-- `Orchestrator._push_to_aria2` (orchestrator.py lines 402-440), called
with the (possibly id-updated) task: list videos recursively under the
stored file id; zero videos fails the task with `"未找到视频文件"`; else
push each to the daemon with `dir = download_base_path`, `out = filename`,
store the gids and move to `DOWNLOADING`.  An exception propagates to the
caller's per-task handler, which sets `ERROR` with the first 500 chars of
the message. -/
def pushToAria2Body (env : DriveEnv) (dbp : String) (t : Task) : PushResult :=
  let fid := t.pikpakFileId.getD ""
  match env.videosOf fid with
  | .error msg =>
    ⟨{ t with status := .error, errorMessage := some (msg.take 500) }, [fid], []⟩
  | .ok videos =>
    if videos = [] then
      ⟨{ t with status := .error, errorMessage := some "未找到视频文件" }, [fid], []⟩
    else
      let r := pushLoop env dbp videos
      match r.1 with
      | some msg =>
        ⟨{ t with status := .error, errorMessage := some (msg.take 500) }, [fid], r.2.2⟩
      | none =>
        ⟨{ t with aria2Gids := r.2.1, status := .downloading }, [fid], r.2.2⟩

/-- The per-task body of `Orchestrator._push_ready_transfers`
(orchestrator.py lines 368-398), for a task already selected by the
`status == PIKPAK_TRANSFERRING` query: skip tasks without a
`pikpak_file_id`; probe readiness with the stored id and name; if not
ready, leave the task; if an `actual_id` was returned and differs from the
stored id, rewrite `pikpak_file_id` to it before pushing to the daemon. -/
def pushTransferringTask (env : DriveEnv) (dbp : String) (t : Task) : PushResult :=
  if t.pikpakFileId.getD "" = "" then ⟨t, [], []⟩
  else
    let fid := t.pikpakFileId.getD ""
    let r := env.isFileReady fid t.pikpakFileName
    if !r.1 then ⟨t, [], []⟩
    else
      let t' :=
        match r.2 with
        | some a => if a ≠ "" ∧ a ≠ fid then { t with pikpakFileId := some a } else t
        | none => t
      pushToAria2Body env dbp t'

/-- One Push-to-Daemon tick over the task list: every task selected by
`status == PIKPAK_TRANSFERRING` goes through the per-task body. -/
def pushTick (env : DriveEnv) (dbp : String) (tasks : List Task) : List Task :=
  tasks.map fun t =>
    if t.status = .pikpakTransferring then (pushTransferringTask env dbp t).task else t

/-- The low-level collaborators of `PikPakService.is_file_ready`:
`getFileInfo` is `PikPakService.get_file_info`, which raises `PikPakError`
on any failure; `findTransferred` is
`PikPakService._find_transferred_files`, which may raise a transport
error. -/
structure PikPakEnv where
  getFileInfo : String → Except Unit FileInfo
  findTransferred : List String → Except Unit (List String)

/-- `PikPakService.is_file_ready` (pikpak_service.py lines 368-412):
primary lookup by id through `get_file_info`; a `PikPakError` there falls
back, when a non-empty `file_name` is given, to a name lookup in
`"Pack From Shared"` whose first hit is re-checked and returned as
`actual_id`; every failure path — including any exception, caught by the
outer handler — yields `(False, None)`. -/
def isFileReady (env : PikPakEnv) (fileId : String) (fileName : Option String) :
    Bool × Option String :=
  match env.getFileInfo fileId with
  | .ok info => checkFileReady info fileId
  | .error _ =>
    match fileName with
    | some nm =>
      if nm = "" then (false, none)
      else
        match env.findTransferred [nm] with
        | .error _ => (false, none)
        | .ok found =>
          match found with
          | [] => (false, none)
          | actual :: _ =>
            match env.getFileInfo actual with
            | .ok info => ((checkFileReady info actual).1, some actual)
            | .error _ => (false, none)
    | none => (false, none)

/-- Python `str.startswith`. -/
def pyStartswith (s pre : String) : Bool := pre.data.isPrefixOf s.data

/-- `PikPakService.is_magnet_link`: true iff the url starts with
`magnet:?`. -/
def isMagnetLink (url : String) : Bool := pyStartswith url "magnet:?"

/-- A character matched by the share-token class `[A-Za-z0-9_-]` of
`PikPakService.parse_share_url`. -/
def shareTokenChar (c : Char) : Bool := c.isAlphanum || c = '_' || c = '-'

/-- `re.search(r"mypikpak\.com/s/([A-Za-z0-9_-]+)", url)`: scan for the
first position where the literal `mypikpak.com/s/` is followed by at
least one token character; capture the token run. -/
def parseShareUrlAux : List Char → Option (List Char)
  | [] => none
  | c :: rest =>
    if "mypikpak.com/s/".data.isPrefixOf (c :: rest) then
      let tok := ((c :: rest).drop "mypikpak.com/s/".data.length).takeWhile shareTokenChar
      if tok = [] then parseShareUrlAux rest else some tok
    else parseShareUrlAux rest

/-- `PikPakService.parse_share_url` (pikpak_service.py lines 341-356). -/
def parseShareUrl (url : String) : Option String :=
  (parseShareUrlAux url.data).map fun cs => String.mk cs

/-- One member of a share's `files` list (`f["id"]`, `f.get("name", "")`). -/
structure ShareFile where
  id : String
  name : String
deriving DecidableEq, Repr

/-- A share-info response: `pass_code_token`, `files`, `share_status`. -/
structure ShareInfo where
  passCodeToken : String
  files : List ShareFile
  shareStatus : String
deriving DecidableEq, Repr

/-- The collaborators of one Confirm-and-Transfer tick: `shareInfo` is
`client.get_share_info`, `restore` is `client.restore`, and
`offlineDownload` is `PikPakService.offline_download` followed by the
caller's `result.get("task", {}).get("file_id")` extraction (so its `ok`
value is the optional `file_id`).  Each may raise, carrying a message. -/
structure ConfirmEnv where
  shareInfo : String → Except String ShareInfo
  restore : String → String → List String → Except String Unit
  offlineDownload : String → Except String (Option String)

/-- `PikPakService.transfer_share_content` (pikpak_service.py lines
243-299): parse the share token from the URL; fetch share info; require
`share_status == "OK"` and a non-empty `files` list; restore the original
ids with the `pass_code_token`; return `(file_name, original_id)` pairs. -/
def transferShareContent (env : ConfirmEnv) (shareUrl : String) :
    Except String (List (String × String)) :=
  match parseShareUrl shareUrl with
  | none => .error ("无法从 URL 解析 share_id: " ++ shareUrl)
  | some shareId =>
    match env.shareInfo shareUrl with
    | .error e => .error ("转存分享失败: " ++ e)
    | .ok info =>
      if info.shareStatus ≠ "OK" then
        .error ("分享链接状态异常: " ++ info.shareStatus)
      else if info.files = [] then
        .error "分享链接内容为空或已失效 (files 为空)"
      else
        match env.restore shareId info.passCodeToken (info.files.map (·.id)) with
        | .error e => .error ("转存分享失败: " ++ e)
        | .ok _ =>
          .ok (List.zip (info.files.map (·.name)) (info.files.map (·.id)))

/-- `Orchestrator._transfer_to_pikpak` (orchestrator.py lines 301-336):
magnet urls go through offline download, requiring a truthy `file_id`;
share urls go through `transfer_share_content`, storing the first
member's name and pre-restore id; the task then moves to
`PIKPAK_TRANSFERRING`.  The `Except.error` message is what the raised
exception carries. -/
def transferToPikpak (env : ConfirmEnv) (t : Task) : Except String Task :=
  if isMagnetLink t.sourceUrl then
    match env.offlineDownload t.sourceUrl with
    | .error e => .error ("离线下载失败: " ++ e)
    | .ok fileId =>
      if fileId.getD "" = "" then .error "PikPak 离线下载失败: 未返回 file_id"
      else .ok { t with pikpakFileId := fileId, status := .pikpakTransferring }
  else
    match transferShareContent env t.sourceUrl with
    | .error e => .error e
    | .ok results =>
      match results with
      | [] => .error "PikPak 转存分享失败: 未返回 file_id"
      | (name, oid) :: _ =>
        .ok { t with pikpakFileId := some oid, pikpakFileName := some name,
                     status := .pikpakTransferring }

/-- The per-task handler of `Orchestrator._process_confirmed_tasks`
(orchestrator.py lines 217-223): an exception from the transfer sets the
task `ERROR` with the first 500 chars of the message. -/
def processConfirmedTask (env : ConfirmEnv) (t : Task) : Task :=
  match transferToPikpak env t with
  | .ok t' => t'
  | .error msg => { t with status := .error, errorMessage := some (msg.take 500) }

/-- Result of one Confirm-and-Transfer tick: the task list and the
`add_uri` daemon calls made during the tick (the tick's code contains no
`add_uri` call site, so this log is built empty). -/
structure ConfirmTickResult where
  tasks : List Task
  addUriCalls : List (String × String × String)
deriving DecidableEq, Repr

/-- One Confirm-and-Transfer tick (`Orchestrator._process_confirmed_tasks`,
orchestrator.py lines 180-226): return untouched if no `CONFIRMED` task
exists, or if the swipe instance is absent (creation is spawned in the
background) or not yet `running`; otherwise run the per-task transfer on
every `CONFIRMED` task.  `instanceStatus` is the remote instance's status
as reported by `get_instance_by_label` (`none` = absent). -/
def confirmTick (env : ConfirmEnv) (instanceStatus : Option String)
    (tasks : List Task) : ConfirmTickResult :=
  if tasks.filter (·.status = .confirmed) = [] then ⟨tasks, []⟩
  else
    match instanceStatus with
    | none => ⟨tasks, []⟩
    | some st =>
      if st ≠ "running" then ⟨tasks, []⟩
      else
        ⟨tasks.map fun t =>
          if t.status = .confirmed then processConfirmedTask env t else t, []⟩

/-- The statuses counted as active by `Orchestrator._check_and_cleanup`
(orchestrator.py lines 526-530). -/
def activeStatuses : List TaskStatus := [.confirmed, .pikpakTransferring, .downloading]

/-- The active-task count queried by the cleanup tick. -/
def activeCount (tasks : List Task) : Nat :=
  (tasks.filter fun t => t.status ∈ activeStatuses).length

/-- The cleanup tick's `last_completed` query: the latest non-null
`completed_at` among `COMPLETE` tasks (`order_by desc limit 1`). -/
def lastCompletedAt (tasks : List Task) : Option Int :=
  (tasks.filterMap fun t => if t.status = .complete then t.completedAt else none).max?

/-- What one invocation of `Orchestrator._check_and_cleanup` decides:
invoke `_destroy_swipe_instance`, fall through to
`_cleanup_stale_instance`, or do nothing. -/
inductive CleanupAction where
  | destroy
  | staleCheck
  | noop
deriving DecidableEq, Repr

/-- `Orchestrator._check_and_cleanup` (orchestrator.py lines 522-561):
with any active task, do nothing; with no completed task, fall through to
the stale-instance check; otherwise destroy unless the latest
`completed_at` is within the last 5 minutes. -/
def checkAndCleanup (tasks : List Task) (now : Int) : CleanupAction :=
  if 0 < activeCount tasks then .noop
  else
    match lastCompletedAt tasks with
    | none => .staleCheck
    | some last => if last > now - 5 * 60 then .noop else .destroy

/-- A remote cloud instance as reported by the provider's list endpoint
(the fields `create_instance`'s idempotency check consults). -/
structure RemoteInstance where
  id : Nat
  label : String
deriving DecidableEq, Repr

/-- The provider-side state: the list of live (non-destroyed) instances —
deleted instances no longer appear in listings — plus a fresh-id source
for created instances. -/
structure RemoteState where
  instances : List RemoteInstance
  nextId : Nat
deriving DecidableEq, Repr

/-- `LinodeManager.list_instances(label_prefix)` (linode_manager.py lines
187-208): list all instances, filtered by `label.startswith(prefix)` when
a prefix is given. -/
def listInstances (st : RemoteState) (labelPrefix : Option String) : List RemoteInstance :=
  match labelPrefix with
  | none => st.instances
  | some pfx => st.instances.filter fun i => pyStartswith i.label pfx

/-- The UTF-8 bytes of one character. -/
def utf8Char (c : Char) : List Nat :=
  let n := c.toNat
  if n < 0x80 then [n]
  else if n < 0x800 then [0xC0 + n / 64, 0x80 + n % 64]
  else if n < 0x10000 then [0xE0 + n / 4096, 0x80 + n / 64 % 64, 0x80 + n % 64]
  else [0xF0 + n / 262144, 0x80 + n / 4096 % 64, 0x80 + n / 64 % 64, 0x80 + n % 64]

/-- The UTF-8 encoding of a string, as a byte list. -/
def utf8Bytes (s : String) : List Nat := s.data.flatMap utf8Char

/-- The RFC 4648 base64 alphabet (Python `base64.b64encode`). -/
def base64Chars : List Char :=
  "ABCDEFGHIJKLMNOPQRSTUVWXYZabcdefghijklmnopqrstuvwxyz0123456789+/".data

/-- nth base64 alphabet character. -/
def b64char (n : Nat) : Char := base64Chars.getD n '?'

/-- Standard base64 encoding with `=` padding (Python `base64.b64encode`). -/
def base64Encode : List Nat → List Char
  | [] => []
  | [a] => [b64char (a / 4), b64char (a % 4 * 16), '=', '=']
  | [a, b] => [b64char (a / 4), b64char (a % 4 * 16 + b / 16), b64char (b % 16 * 4), '=']
  | a :: b :: c :: rest =>
    b64char (a / 4) :: b64char (a % 4 * 16 + b / 16) ::
      b64char (b % 16 * 4 + c / 64) :: b64char (c % 64) :: base64Encode rest

/-- Join lines with newlines. -/
def unlines (ls : List String) : String := String.intercalate "\n" ls

/-- `LinodeManager.CLOUD_INIT_TEMPLATE` (linode_manager.py lines 22-89)
after `.format(port=..., password=...)`, as its list of lines (`{{1..5}}`
renders to a literal brace range; `{port}` and `{password}` are
substituted). -/
def cloudInitDoc (port : Nat) (password : String) : List String :=
  [ "#cloud-config"
  , "packages:"
  , "  - wget"
  , "  - unzip"
  , "  - ufw"
  , "  - curl"
  , ""
  , "runcmd:"
  , "  # 下载并安装 Hysteria2 (增加重试)"
  , "  - |"
  , "    for i in \x7b1..5\x7d; do"
  , "      wget -qO /tmp/hysteria https://github.com/apernet/hysteria/releases/latest/download/hysteria-linux-amd64 && break || sleep 5"
  , "    done"
  , "  - chmod +x /tmp/hysteria"
  , "  - mv /tmp/hysteria /usr/local/bin/hysteria"
  , "  "
  , "  # 生成自签名证书"
  , "  - mkdir -p /etc/hysteria"
  , "  - openssl req -x509 -nodes -newkey ec:<(openssl ecparam -name prime256v1) -keyout /etc/hysteria/server.key -out /etc/hysteria/server.crt -days 365 -subj \"/CN=www.bing.com\""
  , "  "
  , "  # 写入配置文件"
  , "  - |"
  , "    cat > /etc/hysteria/config.yaml << 'EOF'"
  , "    listen: :" ++ toString port
  , "    "
  , "    tls:"
  , "      cert: /etc/hysteria/server.crt"
  , "      key: /etc/hysteria/server.key"
  , "    "
  , "    auth:"
  , "      type: password"
  , "      password: " ++ password
  , "    "
  , "    masquerade:"
  , "      type: proxy"
  , "      proxy:"
  , "        url: https://www.bing.com"
  , "        rewriteHost: true"
  , "    EOF"
  , "  "
  , "  # 创建 systemd 服务"
  , "  - |"
  , "    cat > /etc/systemd/system/hysteria.service << 'EOF'"
  , "    [Unit]"
  , "    Description=Hysteria2 Server"
  , "    After=network.target"
  , "    "
  , "    [Service]"
  , "    ExecStart=/usr/local/bin/hysteria server -c /etc/hysteria/config.yaml"
  , "    Restart=always"
  , "    RestartSec=5"
  , "    "
  , "    [Install]"
  , "    WantedBy=multi-user.target"
  , "    EOF"
  , "  "
  , "  # 启动服务"
  , "  - systemctl daemon-reload"
  , "  - systemctl enable hysteria"
  , "  - systemctl start hysteria"
  , "  "
  , "  # 配置防火墙"
  , "  - ufw allow " ++ toString port ++ "/udp"
  , "  - ufw --force enable"
  , "  "
  , "  # 标记就绪"
  , "  - touch /var/run/hysteria_ready"
  , "" ]

/-- The outcome of `LinodeManager.create_instance`: the returned
instance, the provider state after the call, and the base64 `user_data`
of the submitted create request (`none` when an existing same-label
instance was reused and no request was submitted). -/
structure CreateResult where
  inst : RemoteInstance
  state : RemoteState
  submittedUserData : Option String
deriving DecidableEq, Repr

/-- `LinodeManager.create_instance` (linode_manager.py lines 105-171):
list instances with the label as prefix; if one has exactly that label,
return it without creating; otherwise submit a create request whose
`metadata.user_data` is the base64-encoded rendered cloud-init template. -/
def createInstance (st : RemoteState) (label : String) (hysteriaPort : Nat)
    (hysteriaPassword : String) : CreateResult :=
  match (listInstances st (some label)).find? (fun i => i.label = label) with
  | some inst => ⟨inst, st, none⟩
  | none =>
    let inst : RemoteInstance := ⟨st.nextId, label⟩
    ⟨inst, ⟨st.instances ++ [inst], st.nextId + 1⟩,
      some (String.mk (base64Encode (utf8Bytes (unlines
        (cloudInitDoc hysteriaPort hysteriaPassword)))))⟩

/-- Number of remote instances carrying a label. -/
def countLabel (st : RemoteState) (label : String) : Nat :=
  (st.instances.filter fun i => i.label = label).length

/-- Substring test on character lists (is `pat` a contiguous substring). -/
def containsSub (pat : List Char) : List Char → Bool
  | [] => pat.isEmpty
  | c :: rest => pat.isPrefixOf (c :: rest) || containsSub pat rest

/-- Does some line of the document contain the pattern. -/
def docContains (doc : List String) (pat : String) : Bool :=
  doc.any fun line => containsSub pat.data line.data

/-- Uppercase hex digit. -/
def hexUpper (n : Nat) : Char := "0123456789ABCDEF".data.getD n '?'

/-- The bytes Python `urllib.parse.quote` never encodes
(`ALWAYS_SAFE`): ASCII letters, digits, `_`, `.`, `-`, `~`. -/
def alwaysSafeByte (b : Nat) : Bool :=
  decide ((0x41 ≤ b ∧ b ≤ 0x5A) ∨ (0x61 ≤ b ∧ b ≤ 0x7A) ∨ (0x30 ≤ b ∧ b ≤ 0x39) ∨
    b = 0x5F ∨ b = 0x2E ∨ b = 0x2D ∨ b = 0x7E)

/-- Percent-encode one byte unless it is always-safe. -/
def quoteByte (b : Nat) : List Char :=
  if alwaysSafeByte b then [Char.ofNat b] else ['%', hexUpper (b / 16), hexUpper (b % 16)]

/-- Python `urllib.parse.quote(s, safe='')`: UTF-8 encode, then
percent-encode every byte outside the always-safe set (uppercase hex). -/
def pythonQuote (s : String) : String := String.mk ((utf8Bytes s).flatMap quoteByte)

/-- The proxy URL built by `Orchestrator._configure_aria2_proxy`
(orchestrator.py lines 676-708): HTTP port is the SOCKS5 base port plus
7000; the password is url-encoded. -/
def proxyUrl (ipAddress : String) (port : Nat) (username password : String) : String :=
  let httpPort := port + 7000
  let encodedPassword := pythonQuote password
  "http://" ++ username ++ ":" ++ encodedPassword ++ "@" ++ ipAddress ++ ":" ++
    toString httpPort

/-- `Aria2Client.set_proxy` (aria2_client.py lines 121-133): the options
map passed to `aria2.changeGlobalOption` — `all-proxy` set to the url, or
to the empty string when clearing (`proxy_url or ""`). -/
def setProxyOptions (url : Option String) : List (String × String) :=
  [("all-proxy", url.getD "")]

/-- The daemon global options written by
`Orchestrator._configure_aria2_proxy` via `set_proxy`. -/
def configureAria2ProxyWrites (ipAddress : String) (port : Nat)
    (username password : String) : List (String × String) :=
  setProxyOptions (some (proxyUrl ipAddress port username password))

/-- The mapped column names of the `Linode` model (models/linode.py plus
the `TimestampMixin` of models/base.py).  Note the proxy columns are
`hysteria_port`/`hysteria_password`; there are no `socks5_*` columns. -/
def linodeColumns : List String :=
  ["id", "linode_id", "label", "region", "ip_address", "hysteria_port",
   "hysteria_password", "status", "hourly_cost", "total_minutes", "ready_at",
   "destroyed_at", "created_at", "updated_at"]

/-- The keyword arguments of the `Linode(...)` row construction in
`Orchestrator._sync_instance_status` (orchestrator.py lines 115-124). -/
def syncLinodeRowKwargs : List String :=
  ["linode_id", "label", "region", "ip_address", "status", "socks5_port",
   "socks5_username", "socks5_password"]

/-- The keyword arguments of the `Linode(...)` row construction in
`Orchestrator._create_swipe_instance` (orchestrator.py lines 246-254). -/
def provisionLinodeRowKwargs : List String :=
  ["linode_id", "label", "region", "socks5_port", "socks5_username",
   "socks5_password", "status"]

/-- SQLAlchemy's declarative constructor accepts a keyword-argument set
iff every name is a mapped attribute of the model; an unknown name raises
`TypeError` and no row is produced (external library behavior, modelled
from SQLAlchemy's documented `_declarative_constructor`). -/
def declarativeInitAccepts (cols kwargs : List String) : Bool :=
  kwargs.all fun k => cols.contains k

lemma monitorScan_hasError_of_mem (probe : String → ProbeResult)
    (gids : List String) (b : Bool) (g : String) (hg : g ∈ gids)
    (herr : probe g = .ok "error") : (monitorScan probe gids b).2 = true := by
  induction gids generalizing b with
  | nil => cases hg
  | cons x rest ih =>
    rcases List.mem_cons.mp hg with h | h
    · subst h
      simp [monitorScan, herr]
    · unfold monitorScan
      rcases hp : probe x with s | _
      · by_cases hs : s = "error"
        · simp [hs]
        · by_cases hc : s = "complete" <;> simp [hs, hc, ih _ h]
      · exact ih _ h

lemma monitorScan_no_error (probe : String → ProbeResult)
    (gids : List String) (b : Bool)
    (hne : ∀ g ∈ gids, probe g ≠ .ok "error") :
    monitorScan probe gids b =
      (b && gids.all (fun g => probe g = .ok "complete"), false) := by
  induction gids generalizing b with
  | nil => simp [monitorScan]
  | cons x rest ih =>
    have hx : probe x ≠ .ok "error" := hne x (List.mem_cons_self x rest)
    have hrest : ∀ g ∈ rest, probe g ≠ .ok "error" :=
      fun g hg => hne g (List.mem_cons_of_mem x hg)
    unfold monitorScan
    rcases hp : probe x with s | _
    · have hs : s ≠ "error" := by
        intro h; exact hx (by rw [hp, h])
      by_cases hc : s = "complete"
      · subst hc
        simp [hs, ih _ hrest, hp, List.all_cons]
      · simp [hs, hc, ih _ hrest, hp, List.all_cons]
    · simp [ih _ hrest, hp, List.all_cons]

/-- C1: On each Monitor tick, for every task with status `DOWNLOADING` and a
non-empty handle list: such a task is processed by the per-task body; if any
handle's `tell_status` probe reports `"error"`, the task is set to `ERROR`
with `error_message` `"Aria2 下载失败"`; if every handle reports
`"complete"`, the task is set to `COMPLETE` with `completed_at = now`; and a
probe exception is treated as in-progress, so if a probe raises and no
handle reports `"error"`, the task is left unchanged for this tick. -/
theorem monitor_tick_aggregation
    (probe : String → ProbeResult) (now : Int) (t : Task)
    (hst : t.status = .downloading) (hne : t.aria2Gids ≠ []) :
    monitorTick probe now [t] = [monitorDownloadingTask probe now t]
  ∧ ((∃ g ∈ t.aria2Gids, probe g = .ok "error") →
      (monitorDownloadingTask probe now t).status = .error ∧
      (monitorDownloadingTask probe now t).errorMessage = some "Aria2 下载失败")
  ∧ ((∀ g ∈ t.aria2Gids, probe g = .ok "complete") →
      (monitorDownloadingTask probe now t).status = .complete ∧
      (monitorDownloadingTask probe now t).completedAt = some now)
  ∧ ((∃ g ∈ t.aria2Gids, probe g = .exc) → (∀ g ∈ t.aria2Gids, probe g ≠ .ok "error") →
      monitorDownloadingTask probe now t = t) := by
  refine ⟨by simp [monitorTick, hst], ?_, ?_, ?_⟩
  · rintro ⟨g, hg, herr⟩
    have h2 := monitorScan_hasError_of_mem probe t.aria2Gids true g hg herr
    simp [monitorDownloadingTask, hne, h2]
  · intro hall
    have hnoerr : ∀ g ∈ t.aria2Gids, probe g ≠ .ok "error" := by
      intro g hg h
      have := hall g hg
      rw [this] at h
      simp at h
    have hscan := monitorScan_no_error probe t.aria2Gids true hnoerr
    have hallb : t.aria2Gids.all (fun g => probe g = .ok "complete") = true := by
      rw [List.all_eq_true]
      intro g hg
      simp [hall g hg]
    rw [hallb] at hscan
    simp only [Bool.true_and] at hscan
    simp [monitorDownloadingTask, hne, hscan]
  · rintro ⟨g, hg, hexc⟩ hnoerr
    have hscan := monitorScan_no_error probe t.aria2Gids true hnoerr
    have hallb : t.aria2Gids.all (fun g => probe g = .ok "complete") = false := by
      rw [List.all_eq_false]
      exact ⟨g, hg, by simp [hexc]⟩
    rw [hallb] at hscan
    simp only [Bool.true_and] at hscan
    simp [monitorDownloadingTask, hne, hscan]

/-- Witness for C1: concrete instantiations of the three aggregation
clauses of `monitor_tick_aggregation`. -/
theorem monitor_tick_aggregation_witness :
    (monitorDownloadingTask (fun g => if g = "g1" then .ok "error" else .ok "active") 100
      { status := .downloading, sourceUrl := "u", aria2Gids := ["g1", "g2"] }).status = .error
  ∧ (monitorDownloadingTask (fun _ => .ok "complete") 100
      { status := .downloading, sourceUrl := "u", aria2Gids := ["g1"] }).completedAt = some 100
  ∧ monitorDownloadingTask (fun _ => .exc) 100
      { status := .downloading, sourceUrl := "u", aria2Gids := ["g1"] } =
      { status := .downloading, sourceUrl := "u", aria2Gids := ["g1"] } := by
  refine ⟨?_, ?_, ?_⟩
  · exact ((monitor_tick_aggregation _ 100 _ rfl (by decide)).2.1 (by decide)).1
  · exact ((monitor_tick_aggregation _ 100 _ rfl (by decide)).2.2.1 (by decide)).2
  · exact (monitor_tick_aggregation _ 100 _ rfl (by decide)).2.2.2 (by decide) (by decide)

/-- C3: For every file record examined by `_check_file_ready`: a folder is
reported ready; otherwise the record is reported ready if and only if its
reported size is greater than 0 and its phase equals
`PHASE_TYPE_COMPLETE`.  In both cases the examined id is echoed back. -/
theorem check_file_ready_spec (info : FileInfo) (fileId : String) :
    (info.kind = "drive#folder" → checkFileReady info fileId = (true, some fileId))
  ∧ (info.kind ≠ "drive#folder" →
      ((checkFileReady info fileId).1 = true ↔
        info.size > 0 ∧ info.phase = "PHASE_TYPE_COMPLETE")
      ∧ (checkFileReady info fileId).2 = some fileId) := by
  constructor
  · intro h
    simp [checkFileReady, h]
  · intro h
    constructor
    · simp [checkFileReady, h]
    · simp [checkFileReady, h]

/-- Witness for C3: a folder record is ready; a completed non-empty file
record is ready. -/
theorem check_file_ready_spec_witness :
    checkFileReady ⟨0, "", "drive#folder", "dir"⟩ "f1" = (true, some "f1")
  ∧ (checkFileReady ⟨5, "PHASE_TYPE_COMPLETE", "drive#file", "v.mp4"⟩ "f2").1 = true := by
  refine ⟨(check_file_ready_spec _ _).1 rfl, ?_⟩
  exact ((check_file_ready_spec ⟨5, "PHASE_TYPE_COMPLETE", "drive#file", "v.mp4"⟩ "f2").2
    (by decide)).1.mpr (by constructor <;> decide)

lemma pushToAria2Body_calls_and_id (env : DriveEnv) (dbp : String) (t : Task) :
    (pushToAria2Body env dbp t).videoCalls = [t.pikpakFileId.getD ""]
  ∧ (pushToAria2Body env dbp t).task.pikpakFileId = t.pikpakFileId := by
  unfold pushToAria2Body
  rcases h : env.videosOf (t.pikpakFileId.getD "") with msg | videos
  · simp [h]
  · by_cases hv : videos = []
    · simp [h, hv]
    · rcases hr : (pushLoop env dbp videos).1 with _ | msg <;> simp [h, hv, hr]

/-- C2: On each Push-to-Daemon tick, for every `PIKPAK_TRANSFERRING`
task whose readiness probe returns ready with an `actual_id` different
from the stored `pikpak_file_id`, the task's `pikpak_file_id` is updated
to `actual_id`, and `get_video_files_recursive` is invoked exactly once,
with the updated id. -/
theorem push_updates_file_id_before_listing
    (env : DriveEnv) (dbp : String) (t : Task) (fid a : String)
    (hst : t.status = .pikpakTransferring)
    (hfid : t.pikpakFileId = some fid) (hfne : fid ≠ "")
    (hready : env.isFileReady fid t.pikpakFileName = (true, some a))
    (hane : a ≠ "") (hdiff : a ≠ fid) :
    pushTick env dbp [t] = [(pushTransferringTask env dbp t).task]
  ∧ (pushTransferringTask env dbp t).videoCalls = [a]
  ∧ (pushTransferringTask env dbp t).task.pikpakFileId = some a := by
  refine ⟨by simp [pushTick, hst], ?_⟩
  have hbody : pushTransferringTask env dbp t =
      pushToAria2Body env dbp { t with pikpakFileId := some a } := by
    unfold pushTransferringTask
    rw [hfid]
    simp only [Option.getD_some]
    rw [if_neg hfne, hready]
    simp [hane, hdiff]
  rw [hbody]
  have hfacts := pushToAria2Body_calls_and_id env dbp { t with pikpakFileId := some a }
  simpa using hfacts

/-- Witness for C2: a concrete ready probe returning a fresh id. -/
theorem push_updates_file_id_before_listing_witness :
    (pushTransferringTask
      ⟨fun _ _ => (true, some "post-99"),
       fun i => .ok [⟨i ++ "-v", "Movie.mkv", 42, "https://cdn/x"⟩],
       fun _ _ _ => .ok "gid-1"⟩ "/downloads"
      { status := .pikpakTransferring, sourceUrl := "https://mypikpak.com/s/ABCDE",
        pikpakFileId := some "pre-77", pikpakFileName := some "Pack.mkv" }).videoCalls
      = ["post-99"]
  ∧ (pushTransferringTask
      ⟨fun _ _ => (true, some "post-99"),
       fun i => .ok [⟨i ++ "-v", "Movie.mkv", 42, "https://cdn/x"⟩],
       fun _ _ _ => .ok "gid-1"⟩ "/downloads"
      { status := .pikpakTransferring, sourceUrl := "https://mypikpak.com/s/ABCDE",
        pikpakFileId := some "pre-77", pikpakFileName := some "Pack.mkv" }).task.pikpakFileId
      = some "post-99" := by
  have h := push_updates_file_id_before_listing
    ⟨fun _ _ => (true, some "post-99"),
     fun i => .ok [⟨i ++ "-v", "Movie.mkv", 42, "https://cdn/x"⟩],
     fun _ _ _ => .ok "gid-1"⟩ "/downloads"
    { status := .pikpakTransferring, sourceUrl := "https://mypikpak.com/s/ABCDE",
      pikpakFileId := some "pre-77", pikpakFileName := some "Pack.mkv" }
    "pre-77" "post-99" rfl rfl (by decide) rfl (by decide) (by decide)
  exact ⟨h.2.1, h.2.2⟩

/-- C10: `is_file_ready` is total: it returns a `(bool, optional id)`
pair, and on any drive lookup failure — the by-id lookup raising
`PikPakError` and, when a name is given, the by-name lookup raising —
it yields `(False, None)`; consequently the Push-to-Daemon body leaves
such a `TRANSFERRING` task entirely unchanged and makes no drive-listing
or daemon call. -/
theorem is_file_ready_total_on_failure
    (env : PikPakEnv) (fileId : String) (fileName : Option String)
    (h1 : env.getFileInfo fileId = .error ())
    (h2 : ∀ nm, fileName = some nm → env.findTransferred [nm] = .error ()) :
    isFileReady env fileId fileName = (false, none)
  ∧ ∀ (venv : String → Except String (List Video))
      (aenv : String → String → String → Except String String)
      (dbp : String) (t : Task),
      t.pikpakFileId = some fileId → t.pikpakFileName = fileName →
      pushTransferringTask ⟨isFileReady env, venv, aenv⟩ dbp t = ⟨t, [], []⟩ := by
  have hmain : isFileReady env fileId fileName = (false, none) := by
    match fileName with
    | none => simp [isFileReady, h1]
    | some nm =>
      by_cases hnm : nm = ""
      · simp [isFileReady, h1, hnm]
      · simp [isFileReady, h1, hnm, h2 nm rfl]
  refine ⟨hmain, ?_⟩
  intro venv aenv dbp t hid hnm
  unfold pushTransferringTask
  by_cases hz : fileId = ""
  · simp [hid, hz]
  · simp [hid, hz, hnm, hmain]

/-- Witness for C10: a drive where every lookup fails leaves a concrete
`TRANSFERRING` task untouched. -/
theorem is_file_ready_total_on_failure_witness :
    isFileReady ⟨fun _ => .error (), fun _ => .error ()⟩ "f1" (some "n") = (false, none)
  ∧ pushTransferringTask
      ⟨isFileReady ⟨fun _ => .error (), fun _ => .error ()⟩,
       fun _ => .ok [], fun _ _ _ => .ok "g"⟩ "/downloads"
      { status := .pikpakTransferring, sourceUrl := "u",
        pikpakFileId := some "f1", pikpakFileName := some "n" } =
      ⟨{ status := .pikpakTransferring, sourceUrl := "u",
         pikpakFileId := some "f1", pikpakFileName := some "n" }, [], []⟩ := by
  have h := is_file_ready_total_on_failure ⟨fun _ => .error (), fun _ => .error ()⟩
    "f1" (some "n") rfl (fun nm _ => rfl)
  exact ⟨h.1, h.2 (fun _ => .ok []) (fun _ _ _ => .ok "g") "/downloads" _ rfl rfl⟩

/-- C4: For every `CONFIRMED` share-URL task whose share info yields an
empty `files` list, a single Confirm-and-Transfer tick (with the instance
running) moves the task to `ERROR` with a failure message stored, and the
tick makes no `add_uri` daemon call. -/
theorem confirm_tick_empty_share
    (env : ConfirmEnv) (t : Task) (sid : String) (info : ShareInfo)
    (hst : t.status = .confirmed)
    (hmag : isMagnetLink t.sourceUrl = false)
    (hparse : parseShareUrl t.sourceUrl = some sid)
    (hinfo : env.shareInfo t.sourceUrl = .ok info)
    (hfiles : info.files = []) :
    (processConfirmedTask env t).status = .error
  ∧ (processConfirmedTask env t).errorMessage.isSome = true
  ∧ confirmTick env (some "running") [t] = ⟨[processConfirmedTask env t], []⟩ := by
  have hshare : transferShareContent env t.sourceUrl =
      .error (if info.shareStatus = "OK" then "分享链接内容为空或已失效 (files 为空)"
              else "分享链接状态异常: " ++ info.shareStatus) := by
    by_cases hOK : info.shareStatus = "OK" <;>
      simp [transferShareContent, hparse, hinfo, hOK, hfiles]
  have hbody : processConfirmedTask env t =
      { t with status := .error,
               errorMessage := some ((if info.shareStatus = "OK" then
                 "分享链接内容为空或已失效 (files 为空)"
                 else "分享链接状态异常: " ++ info.shareStatus).take 500) } := by
    simp [processConfirmedTask, transferToPikpak, hmag, hshare]
  refine ⟨by rw [hbody], by rw [hbody]; rfl, ?_⟩
  simp [confirmTick, hst]

/-- Witness for C4: a concrete share task whose share info has
`share_status = "OK"` and an empty `files` list. -/
theorem confirm_tick_empty_share_witness :
    (processConfirmedTask ⟨fun _ => .ok ⟨"tok", [], "OK"⟩, fun _ _ _ => .ok (), fun _ => .ok none⟩
      { status := .confirmed, sourceUrl := "https://mypikpak.com/s/ABCDE" }).status = .error
  ∧ (confirmTick ⟨fun _ => .ok ⟨"tok", [], "OK"⟩, fun _ _ _ => .ok (), fun _ => .ok none⟩
      (some "running")
      [{ status := .confirmed, sourceUrl := "https://mypikpak.com/s/ABCDE" }]).addUriCalls = [] := by
  have h := confirm_tick_empty_share
    ⟨fun _ => .ok ⟨"tok", [], "OK"⟩, fun _ _ _ => .ok (), fun _ => .ok none⟩
    { status := .confirmed, sourceUrl := "https://mypikpak.com/s/ABCDE" }
    "ABCDE" ⟨"tok", [], "OK"⟩ rfl (by decide) (by decide) rfl rfl
  refine ⟨h.1, ?_⟩
  rw [h.2.2]

/-- C5: One invocation of the cleanup tick invokes the instance
destruction exactly when no task is active (`CONFIRMED`,
`PIKPAK_TRANSFERRING`, `DOWNLOADING`) and the latest `completed_at` among
`COMPLETE` tasks is at least 5 minutes old. -/
theorem cleanup_destroy_iff (tasks : List Task) (now last : Int)
    (hlast : lastCompletedAt tasks = some last) :
    checkAndCleanup tasks now = .destroy ↔
      activeCount tasks = 0 ∧ last ≤ now - 5 * 60 := by
  have hred : checkAndCleanup tasks now =
      if 0 < activeCount tasks then .noop
      else if last > now - 5 * 60 then .noop else .destroy := by
    unfold checkAndCleanup
    rw [hlast]
  rw [hred]
  by_cases ha : 0 < activeCount tasks
  · rw [if_pos ha]
    constructor
    · intro h
      exact absurd h (by decide)
    · rintro ⟨hz, -⟩
      omega
  · rw [if_neg ha]
    by_cases hl : last > now - 5 * 60
    · rw [if_pos hl]
      constructor
      · intro h
        exact absurd h (by decide)
      · rintro ⟨-, h⟩
        omega
    · rw [if_neg hl]
      exact ⟨fun _ => ⟨by omega, by omega⟩, fun _ => rfl⟩

/-- Witness for C5: with a lone task completed 6 minutes before `now` the
tick destroys; completed 4 minutes before, or with an active task around,
it does not. -/
theorem cleanup_destroy_iff_witness :
    checkAndCleanup [{ status := .complete, sourceUrl := "u", completedAt := some 0 }] 360
      = .destroy
  ∧ checkAndCleanup [{ status := .complete, sourceUrl := "u", completedAt := some 0 }] 240
      ≠ .destroy
  ∧ checkAndCleanup [{ status := .complete, sourceUrl := "u", completedAt := some 0 },
      { status := .downloading, sourceUrl := "v" }] 360 ≠ .destroy := by
  refine ⟨?_, ?_, ?_⟩
  · exact (cleanup_destroy_iff _ 360 0 (by decide)).mpr ⟨by decide, by decide⟩
  · intro h
    exact absurd ((cleanup_destroy_iff _ 240 0 (by decide)).mp h).2 (by decide)
  · intro h
    exact absurd ((cleanup_destroy_iff _ 360 0 (by decide)).mp h).1 (by decide)

lemma pyStartswith_self (s : String) : pyStartswith s s = true := by
  simp [pyStartswith]

lemma createInstance_reuses (st : RemoteState) (lbl : String) (p : Nat) (pw : String)
    (h : ∃ i ∈ st.instances, i.label = lbl) :
    (createInstance st lbl p pw).state = st ∧
    (createInstance st lbl p pw).submittedUserData = none := by
  obtain ⟨i, hi, hlab⟩ := h
  have hsome : ((listInstances st (some lbl)).find? (fun j => decide (j.label = lbl))).isSome := by
    rw [List.find?_isSome]
    refine ⟨i, ?_, by simp [hlab]⟩
    simp only [listInstances, List.mem_filter]
    exact ⟨hi, by rw [hlab]; exact pyStartswith_self lbl⟩
  rcases hres : (listInstances st (some lbl)).find? (fun j => decide (j.label = lbl)) with _ | j
  · rw [hres] at hsome
    simp at hsome
  · constructor <;> simp [createInstance, hres]

lemma createInstance_find_none (st : RemoteState) (lbl : String)
    (h : ∀ x ∈ st.instances, x.label ≠ lbl) :
    (listInstances st (some lbl)).find? (fun j => decide (j.label = lbl)) = none := by
  rw [List.find?_eq_none]
  intro x hx
  have hx' : x ∈ st.instances := by
    simp only [listInstances, List.mem_filter] at hx
    exact hx.1
  simp [h x hx']

lemma createInstance_creates (st : RemoteState) (lbl : String) (p : Nat) (pw : String)
    (h : ∀ x ∈ st.instances, x.label ≠ lbl) :
    (createInstance st lbl p pw).state =
      ⟨st.instances ++ [⟨st.nextId, lbl⟩], st.nextId + 1⟩ := by
  simp [createInstance, createInstance_find_none st lbl h]

/-- C6: `create_instance` is idempotent on the instance label: when a
live remote instance with the label exists, it is returned without
submitting a create request and the remote state is unchanged; hence two
calls with the same label, starting from a state with no such instance,
leave exactly one remote instance with that label. -/
theorem create_instance_idempotent (st : RemoteState) (lbl : String) (p : Nat) (pw : String) :
    ((∃ i ∈ st.instances, i.label = lbl) →
      (createInstance st lbl p pw).state = st ∧
      (createInstance st lbl p pw).submittedUserData = none)
  ∧ (countLabel st lbl = 0 →
      countLabel (createInstance (createInstance st lbl p pw).state lbl p pw).state lbl
        = 1) := by
  refine ⟨createInstance_reuses st lbl p pw, ?_⟩
  intro hcount
  have hnl : ∀ x ∈ st.instances, x.label ≠ lbl := by
    intro x hx hlab
    have hmem : x ∈ st.instances.filter (fun i => decide (i.label = lbl)) := by
      rw [List.mem_filter]
      exact ⟨hx, by simp [hlab]⟩
    have : 0 < countLabel st lbl := by
      unfold countLabel
      exact List.length_pos.mpr (fun hemp => by rw [hemp] at hmem; cases hmem)
    omega
  have h1 := createInstance_creates st lbl p pw hnl
  have hmem2 : (⟨st.nextId, lbl⟩ : RemoteInstance) ∈ (createInstance st lbl p pw).state.instances := by
    rw [h1]
    simp
  have h2 := (createInstance_reuses (createInstance st lbl p pw).state lbl p pw
    ⟨⟨st.nextId, lbl⟩, hmem2, rfl⟩).1
  rw [h2, h1]
  unfold countLabel at hcount ⊢
  rw [List.filter_append]
  have hfe : st.instances.filter (fun i => decide (i.label = lbl)) = [] :=
    List.length_eq_zero.mp hcount
  rw [hfe]
  simp

/-- Witness for C6: from an empty remote state, two `create_instance`
calls with label `swipe` leave one labelled instance; with a same-label
instance already present, no create request is submitted. -/
theorem create_instance_idempotent_witness :
    countLabel (createInstance (createInstance ⟨[], 0⟩ "swipe" 443 "pw").state
      "swipe" 443 "pw").state "swipe" = 1
  ∧ (createInstance ⟨[⟨7, "swipe"⟩], 8⟩ "swipe" 443 "pw").submittedUserData = none := by
  constructor
  · exact (create_instance_idempotent ⟨[], 0⟩ "swipe" 443 "pw").2 (by decide)
  · exact ((create_instance_idempotent ⟨[⟨7, "swipe"⟩], 8⟩ "swipe" 443 "pw").1
      ⟨⟨7, "swipe"⟩, by simp, rfl⟩).2

/-- C7: For every instance IPv4, proxy port, username and password, the
daemon global-proxy option written when configuring the proxy is exactly
`http://<user>:<url-encoded-password>@<ipv4>:<proxy_port+7000>`, and
clearing the proxy writes the empty string as the `all-proxy` option.
The last conjunct exercises the percent-encoder on a password with
reserved characters. -/
theorem aria2_proxy_option_format (ip : String) (port : Nat) (user pass : String) :
    configureAria2ProxyWrites ip port user pass =
      [("all-proxy",
        "http://" ++ user ++ ":" ++ pythonQuote pass ++ "@" ++ ip ++ ":"
          ++ toString (port + 7000))]
  ∧ setProxyOptions none = [("all-proxy", "")]
  ∧ pythonQuote "p@ss:w/1" = "p%40ss%3Aw%2F1" :=
  ⟨rfl, rfl, by decide⟩

/-- C8 (code bug): the `Linode` model defines only
`hysteria_port`/`hysteria_password` proxy columns, so the `socks5_*`
keyword arguments used by both `Linode(...)` row constructions in the
orchestrator are rejected by the declarative constructor — no Instance
row storing socks5 credentials can be written. -/
theorem linode_row_socks5_columns_missing :
    declarativeInitAccepts linodeColumns syncLinodeRowKwargs = false
  ∧ declarativeInitAccepts linodeColumns provisionLinodeRowKwargs = false
  ∧ linodeColumns.contains "socks5_port" = false
  ∧ linodeColumns.contains "socks5_username" = false
  ∧ linodeColumns.contains "socks5_password" = false
  ∧ linodeColumns.contains "hysteria_port" = true := by decide

/-- Counterexample to C9: the rendered bootstrap document at a concrete
port and password nowhere mentions `danted` and creates no OS user
(`useradd`/`adduser`/`chpasswd` absent); it installs `hysteria` instead. -/
theorem cloud_init_payload_not_danted :
    docContains (cloudInitDoc 443 "pw") "danted" = false
  ∧ docContains (cloudInitDoc 443 "pw") "useradd" = false
  ∧ docContains (cloudInitDoc 443 "pw") "adduser" = false
  ∧ docContains (cloudInitDoc 443 "pw") "chpasswd" = false
  ∧ docContains (cloudInitDoc 443 "pw") "hysteria" = true := by decide

/-- C9 as amended: when no same-label instance exists, the create request
carries as `user_data` the base64-encoded rendered cloud-init document,
and that document installs the Hysteria2 proxy daemon (started as a
systemd service), configures it to listen on the supplied port with the
supplied password, and opens that (UDP) port in the firewall. -/
theorem cloud_init_payload_hysteria (st : RemoteState) (lbl : String) (port : Nat)
    (pw : String) (h : ∀ i ∈ st.instances, i.label ≠ lbl) :
    (createInstance st lbl port pw).submittedUserData =
      some (String.mk (base64Encode (utf8Bytes (unlines (cloudInitDoc port pw)))))
  ∧ "  - systemctl start hysteria" ∈ cloudInitDoc port pw
  ∧ "  - ufw allow " ++ toString port ++ "/udp" ∈ cloudInitDoc port pw
  ∧ "    listen: :" ++ toString port ∈ cloudInitDoc port pw
  ∧ "      password: " ++ pw ∈ cloudInitDoc port pw := by
  refine ⟨?_, ?_, ?_, ?_, ?_⟩
  · simp [createInstance, createInstance_find_none st lbl h]
  · simp [cloudInitDoc]
  · simp [cloudInitDoc]
  · simp [cloudInitDoc]
  · simp [cloudInitDoc]

/-- Witness for the amended C9: an empty remote state, port 443,
password `pw`. -/
theorem cloud_init_payload_hysteria_witness :
    (createInstance ⟨[], 0⟩ "swipe" 443 "pw").submittedUserData =
      some (String.mk (base64Encode (utf8Bytes (unlines (cloudInitDoc 443 "pw")))))
  ∧ "  - ufw allow " ++ toString 443 ++ "/udp" ∈ cloudInitDoc 443 "pw" := by
  have h := cloud_init_payload_hysteria ⟨[], 0⟩ "swipe" 443 "pw" (by simp)
  exact ⟨h.1, h.2.2.1⟩

end TinderSwipe
